import Mathlib

/-!
Verification development for the stock-collector repository
(`src/collector_dart.py`, with the retry client of `src/collector_v1.py`).

The Python code is shallowly embedded: pure helpers become Lean functions,
dictionaries with a fixed key set become structures, HTTP traffic is
abstracted into explicit response values handed to the embedded functions,
and the sequential semantics of the worker pool (each task runs the worker
body exactly once; the budget counter and checkpoint set are mutated under
a mutex, so any interleaving is equivalent to a sequential fold) is a fold
over the task list.

Naming: the six canonical metrics are stored in the Python dictionaries
under the Korean keys 매출액 (revenue), 영업이익 (operating income),
당기순이익 (net income), 자산총계 (assets), 부채총계 (liabilities),
자기자본 (equity); the Lean structure uses the English names.
-/

/-- ASCII whitespace as stripped by Python `str.strip()` on the
account strings produced by the upstream API. -/
def isWS (c : Char) : Bool :=
  c = ' ' || c = '\t' || c = '\n' || c = '\r' || c = '\x0b' || c = '\x0c'

/-- Python `s.strip()` on a character list: drop whitespace at both ends. -/
def pyStripL (l : List Char) : List Char :=
  ((l.dropWhile isWS).reverse.dropWhile isWS).reverse

/-- Python `s.strip()` on strings. -/
def pyStrip (s : String) : String := ⟨pyStripL s.data⟩

/-- Python `s.replace(",", "")`: remove every comma. -/
def removeCommas (l : List Char) : List Char := l.filter (fun c => c != ',')

/-- Numeric value of a digit run (most significant first). -/
def digitsToNat (l : List Char) : Nat :=
  l.foldl (fun a c => a * 10 + (c.toNat - '0'.toNat)) 0

/-- Split a leading digit run off a character list. -/
def spanDigits (l : List Char) : List Char × List Char :=
  (l.takeWhile Char.isDigit, l.dropWhile Char.isDigit)

/-- Optional leading sign; returns (isNegative, rest). -/
def parseSign : List Char → Bool × List Char
  | '+' :: cs => (false, cs)
  | '-' :: cs => (true, cs)
  | cs => (false, cs)

/-- Decomposed decimal literal accepted by Python `float(s)`:
sign, mantissa digits (integer and fractional part concatenated),
number of fractional digits, and decimal exponent. -/
structure FloatParts where
  neg : Bool
  mantissa : Nat
  fracLen : Nat
  exp : Int
deriving DecidableEq, Repr

/-- Parse the exponent suffix (`e`/`E`, optional sign, digits) of a float
literal; `some 0` when absent, `none` when malformed. -/
def parseExpPart : List Char → Option Int
  | [] => some 0
  | c :: cs =>
    if c = 'e' ∨ c = 'E' then
      let p := parseSign cs
      let d := spanDigits p.2
      if d.1 = [] ∨ d.2 ≠ [] then none
      else some (if p.1 then -(digitsToNat d.1 : Int) else (digitsToNat d.1 : Int))
    else none

/-- Parse the decimal grammar accepted by Python `float(s)` on already
stripped input: `[+-]? (digits [. digits*] | . digits) ([eE][+-]?digits)?`.
The value is kept exactly (CPython rounds through an IEEE-754 double,
which agrees on every amount within double precision; inputs such as
`inf`/`nan`, which make `int(float(s))` raise and the caller return
`None`, are rejected here as well). -/
def parseFloatParts (l : List Char) : Option FloatParts :=
  let s := parseSign l
  let ip := spanDigits s.2
  match ip.2 with
  | '.' :: l3 =>
    let fp := spanDigits l3
    if ip.1 = [] ∧ fp.1 = [] then none
    else
      match parseExpPart fp.2 with
      | some e => some ⟨s.1, digitsToNat (ip.1 ++ fp.1), fp.1.length, e⟩
      | none => none
  | _ =>
    if ip.1 = [] then none
    else
      match parseExpPart ip.2 with
      | some e => some ⟨s.1, digitsToNat ip.1, 0, e⟩
      | none => none

/-- Truncate the exact value of a parsed float toward zero, as
`int(float(s))` does. -/
def truncValue (p : FloatParts) : Int :=
  let e : Int := p.exp - (p.fracLen : Int)
  let n : Nat := if 0 ≤ e then p.mantissa * 10 ^ e.toNat else p.mantissa / 10 ^ (-e).toNat
  if p.neg then -(n : Int) else (n : Int)

/-- `int(float(s))` with failures mapped to `none`. -/
def pyIntOfFloat (l : List Char) : Option Int :=
  (parseFloatParts l).map truncValue

/-- `_parse_amount` from collector_dart.py: on a missing value return
`None`; otherwise remove commas, strip whitespace, map the empty string
and the dash placeholders to `None`, and otherwise truncate the parsed
number to an integer (`None` on parse failure). -/
def _parse_amount (v : Option String) : Option Int :=
  match v with
  | none => none
  | some v0 =>
    let s := pyStripL (removeCommas v0.data)
    if s = [] ∨ s = ['-'] ∨ s = ['–'] then none
    else pyIntOfFloat s

/-! ### Name patterns

The Python code matches display names with `re.search` over alternations
of literal Hangul segments separated by `\s*` (plus two end-anchored
alternatives).  An alternative is embedded as its list of literal
segments together with an end-anchor flag, and `re.search` as a scan
over all suffixes.  The `re.I` flag is irrelevant for these patterns. -/

/-- Match one alternative at the head of `rest`: each literal segment in
turn, skipping any whitespace between consecutive segments (`\s*`);
when `anch` is set the match must end at the end of the input (`$`). -/
def matchAlt : List (List Char) → Bool → List Char → Bool
  | [], anch, rest => !anch || rest.isEmpty
  | [seg], anch, rest => seg.isPrefixOf rest && (!anch || (rest.drop seg.length).isEmpty)
  | seg :: seg2 :: segs, anch, rest =>
    seg.isPrefixOf rest && matchAlt (seg2 :: segs) anch (List.dropWhile isWS (rest.drop seg.length))

/-- `re.search`: try every alternative at every suffix. -/
def searchFrom (alts : List (List (List Char) × Bool)) : List Char → Bool
  | [] => alts.any (fun a => matchAlt a.1 a.2 [])
  | c :: cs => alts.any (fun a => matchAlt a.1 a.2 (c :: cs)) || searchFrom alts cs

/-- Compiled search function of a pattern given as alternatives of
`\s*`-separated literal segments with an optional end anchor. -/
def reSearch (alts : List (List String × Bool)) (s : String) : Bool :=
  searchFrom (alts.map (fun a => (a.1.map String.data, a.2))) s.data

/-- `REVENUE_IDS` from collector_dart.py. -/
def REVENUE_IDS : List String :=
  ["ifrs-full_Revenue", "ifrs_Revenue", "dart_Revenue", "dart_SalesRevenue",
   "ifrs-full_RevenueFromContractsWithCustomers", "ifrs_RevenueFromContractsWithCustomers"]

/-- `OPERATING_INCOME_IDS`. -/
def OPERATING_INCOME_IDS : List String :=
  ["ifrs-full_OperatingIncomeLoss", "dart_OperatingIncomeLoss"]

/-- `NET_INCOME_IDS`. -/
def NET_INCOME_IDS : List String :=
  ["ifrs-full_ProfitLoss", "dart_NetIncomeLoss", "ifrs-full_ProfitLossAttributableToOwnersOfParent"]

/-- `ASSETS_IDS`. -/
def ASSETS_IDS : List String := ["ifrs-full_Assets"]

/-- `LIAB_IDS`. -/
def LIAB_IDS : List String := ["ifrs-full_Liabilities"]

/-- `EQUITY_IDS`. -/
def EQUITY_IDS : List String :=
  ["ifrs-full_Equity", "ifrs-full_EquityAttributableToOwnersOfParent"]

/-- `REV_NAME_RE = (매\s*출|매출액|영업수익|상품매출|제품매출|수수료수익|이자수익|보험료수익|수익\(영업\))`. -/
def REV_NAME_RE : String → Bool :=
  reSearch [(["매", "출"], false), (["매출액"], false), (["영업수익"], false),
            (["상품매출"], false), (["제품매출"], false), (["수수료수익"], false),
            (["이자수익"], false), (["보험료수익"], false), (["수익(영업)"], false)]

/-- `OP_NAME_RE = (영업\s*이익|영업이익\(손실\)|영업손실)`. -/
def OP_NAME_RE : String → Bool :=
  reSearch [(["영업", "이익"], false), (["영업이익(손실)"], false), (["영업손실"], false)]

/-- `NI_NAME_RE = (당기\s*순\s*이익|분기\s*순\s*이익|당기순손익|지배주주지분순이익)`. -/
def NI_NAME_RE : String → Bool :=
  reSearch [(["당기", "순", "이익"], false), (["분기", "순", "이익"], false),
            (["당기순손익"], false), (["지배주주지분순이익"], false)]

/-- `AS_NAME_RE = (자산\s*총계|자산$)`. -/
def AS_NAME_RE : String → Bool :=
  reSearch [(["자산", "총계"], false), (["자산"], true)]

/-- `LI_NAME_RE = (부채\s*총계|부채$)`. -/
def LI_NAME_RE : String → Bool :=
  reSearch [(["부채", "총계"], false), (["부채"], true)]

/-- `EQ_NAME_RE = (자기\s*자본|자본\s*총계|지배기업의소유주지분)`. -/
def EQ_NAME_RE : String → Bool :=
  reSearch [(["자기", "자본"], false), (["자본", "총계"], false), (["지배기업의소유주지분"], false)]

/-- The broader revenue fallback pattern used inside `_one` when
`TREAT_OPERATING_REVENUE_AS_SALES` is set:
`(영업수익|이자수익|보험료수익|수수료수익)`. -/
def FALLBACK_REV_RE : String → Bool :=
  reSearch [(["영업수익"], false), (["이자수익"], false), (["보험료수익"], false),
            (["수수료수익"], false)]


/-! ### Raw line items and the account resolver -/

/-- One raw account row of a statement response (the fields of the
upstream item dictionary that the resolver reads; a `none` field models
a missing dictionary key or a JSON `null`). -/
structure RawLineItem where
  account_id : Option String
  account_cd : Option String
  account_nm : Option String
  thstrm_amount : Option String
deriving DecidableEq, Repr

/-- Python truthiness of an optional string: `None` and `""` are falsy. -/
def pyTruthy : Option String → Bool
  | some s => s ≠ ""
  | none => false

/-- Python `a or b or ""` over optional strings. -/
def orDefault (a b : Option String) : String :=
  if pyTruthy a then a.getD "" else if pyTruthy b then b.getD "" else ""

/-- `(it.get("account_id") or it.get("account_cd") or "").strip()`. -/
def aidOf (it : RawLineItem) : String := pyStrip (orDefault it.account_id it.account_cd)

/-- `(it.get("account_nm") or "").strip()`. -/
def nmOf (it : RawLineItem) : String := pyStrip (orDefault it.account_nm none)

/-- First loop of `_pick_by_id_or_name`: scan for an item whose stripped
identifier is nonempty, lies in `id_set`, whose key `id:<aid>` is not in
`used`, and whose current-term amount parses; an item failing the parse
is skipped and the scan continues. -/
def pickById (id_set : List String) (used : List String) : List RawLineItem → Option (Int × String)
  | [] => none
  | it :: rest =>
    let aid := aidOf it
    if aid ≠ "" ∧ aid ∈ id_set ∧ ("id:" ++ aid) ∉ used then
      match _parse_amount it.thstrm_amount with
      | some val => some (val, "id:" ++ aid)
      | none => pickById id_set used rest
    else pickById id_set used rest

/-- Second loop of `_pick_by_id_or_name`: scan for an item whose stripped
display name matches `name_re`, whose key `nm:<name>` is not in `used`,
and whose amount parses; parse failures are skipped likewise. -/
def pickByName (name_re : String → Bool) (used : List String) :
    List RawLineItem → Option (Int × String)
  | [] => none
  | it :: rest =>
    let nm := nmOf it
    if name_re nm ∧ ("nm:" ++ nm) ∉ used then
      match _parse_amount it.thstrm_amount with
      | some val => some (val, "nm:" ++ nm)
      | none => pickByName name_re used rest
    else pickByName name_re used rest

/-- `_pick_by_id_or_name(items, id_set, name_re, used)`: identifier scan
first, display-name scan as fallback; returns `(value, used-key)` or
`(None, None)`. -/
def _pick_by_id_or_name (items : List RawLineItem) (id_set : List String)
    (name_re : String → Bool) (used : List String) : Option Int × Option String :=
  match pickById id_set used items with
  | some vk => (some vk.1, some vk.2)
  | none =>
    match pickByName name_re used items with
    | some vk => (some vk.1, some vk.2)
    | none => (none, none)

/-! ### Canonical metrics and the per-division resolver `_one` -/

/-- The six canonical metrics of one statement response; the Python
dictionary keys are 매출액 / 영업이익 / 당기순이익 / 자산총계 /
부채총계 / 자기자본 in this order. -/
structure CanonicalMetrics where
  revenue : Option Int
  operating_income : Option Int
  net_income : Option Int
  assets : Option Int
  liabilities : Option Int
  equity : Option Int
deriving DecidableEq, Repr

/-- The all-absent record
`{"매출액":None,"영업이익":None,"당기순이익":None,"자산총계":None,"부채총계":None,"자기자본":None}`. -/
def allAbsent : CanonicalMetrics := ⟨none, none, none, none, none, none⟩

/-- `used.add(k or "")`: record the consumed key, or `""` when the
category found nothing. -/
def addKey (used : List String) (k : Option String) : List String := used ++ [k.getD ""]

/-- The body of `_one` after a successful response: resolve the six
categories in source order (revenue with its optional operating-revenue
fallback, operating income, net income, assets, liabilities, equity),
threading the `used` key set. -/
def resolveItems (treat_operating_revenue_as_sales : Bool)
    (items : List RawLineItem) : CanonicalMetrics :=
  let used0 : List String := []
  let r0 := _pick_by_id_or_name items REVENUE_IDS REV_NAME_RE used0
  let r1 := if r0.1 = none ∧ treat_operating_revenue_as_sales then
              _pick_by_id_or_name items [] FALLBACK_REV_RE used0
            else r0
  let used1 := match r1.2 with
               | some k => used0 ++ [k]
               | none => used0
  let op := _pick_by_id_or_name items OPERATING_INCOME_IDS OP_NAME_RE used1
  let used2 := addKey used1 op.2
  let ni := _pick_by_id_or_name items NET_INCOME_IDS NI_NAME_RE used2
  let used3 := addKey used2 ni.2
  let a := _pick_by_id_or_name items ASSETS_IDS AS_NAME_RE used3
  let used4 := addKey used3 a.2
  let li := _pick_by_id_or_name items LIAB_IDS LI_NAME_RE used4
  let used5 := addKey used4 li.2
  let e := _pick_by_id_or_name items EQUITY_IDS EQ_NAME_RE used5
  ⟨r1.1, op.1, ni.1, a.1, li.1, e.1⟩

/-- `_one(fs_div)` with the HTTP traffic abstracted: `none` stands for a
failed request, an unparseable body, or a DART status other than "000";
`some items` is the `list` field of a successful response (Python turns
an empty or missing list into a `None` return as well). -/
def _one (treat_operating_revenue_as_sales : Bool)
    (response : Option (List RawLineItem)) : Option CanonicalMetrics :=
  match response with
  | none => none
  | some items =>
    if items = [] then none else some (resolveItems treat_operating_revenue_as_sales items)

/-- `core_missing = (not out) or all(out.get(k) is None for k in core keys)`. -/
def coreMissing (out : Option CanonicalMetrics) : Bool :=
  match out with
  | none => true
  | some m => m.revenue.isNone && m.operating_income.isNone && m.net_income.isNone

/-- The guard for the second (OFS) request:
`not FS_DIV_ONLY_CFS or (ticker and ticker.startswith("900"))`. -/
def ofsAllowed (fs_div_only_cfs : Bool) (ticker : Option String) : Bool :=
  !fs_div_only_cfs || (pyTruthy ticker && "900".isPrefixOf (ticker.getD ""))

/-- The two statement-division responses available to one
`fetch_financials` call (network traffic abstracted; see `_one`). -/
structure StatementFetch where
  cfs : Option (List RawLineItem)
  ofs : Option (List RawLineItem)
deriving DecidableEq, Repr

/-- `fetch_financials(corp_code, year, reprt_code, ticker)`: one CFS
request, then — exactly when the three core metrics are all absent and
`ofsAllowed` holds — one OFS request whose non-`None` result replaces
the CFS result; returns the metrics (all-absent instead of a failure)
together with the number of requests made. -/
def fetch_financials (treat_operating_revenue_as_sales fs_div_only_cfs : Bool)
    (ticker : Option String) (net : StatementFetch) : CanonicalMetrics × Nat :=
  let out := _one treat_operating_revenue_as_sales net.cfs
  if coreMissing out && ofsAllowed fs_div_only_cfs ticker then
    let alt := _one treat_operating_revenue_as_sales net.ofs
    let res := match alt with
               | some m => some m
               | none => out
    (res.getD allAbsent, 2)
  else (out.getD allAbsent, 1)

/-! ### Quarter differencer -/

/-- The accumulated `PeriodSeries` of one (ticker, year): the four
cumulative snapshots under the keys Q1 / H1 / Q3 (nine-month) / ANNUAL;
`none` models a key missing from the accumulator dictionary (for which
`series.get(x, {})` substitutes `{}`, every lookup in which is absent). -/
structure PeriodSeries where
  q1 : Option CanonicalMetrics
  h1 : Option CanonicalMetrics
  q3 : Option CanonicalMetrics
  annual : Option CanonicalMetrics
deriving DecidableEq, Repr

/-- `_v(d, key)`: read one metric out of a snapshot, absent when the
snapshot itself is absent.  (The Python `isinstance` guard never fires:
every stored value is an `int` or `None` by construction.) -/
def _v (d : Option CanonicalMetrics) (f : CanonicalMetrics → Option Int) : Option Int :=
  match d with
  | none => none
  | some m => f m

/-- `_sub(a, b)`: `None` when either operand is absent, else `a - b`. -/
def _sub : Option Int → Option Int → Option Int
  | some a, some b => some (a - b)
  | _, _ => none

/-- The four derived standalone-quarter records. -/
structure QuarterSingles where
  q1 : CanonicalMetrics
  q2 : CanonicalMetrics
  q3 : CanonicalMetrics
  q4 : CanonicalMetrics
deriving DecidableEq, Repr

/-- `make_quarter_single(series)`: flow metrics by successive
subtraction of cumulative snapshots (Q1 as is, Q2 = H1 − Q1,
Q3 = 9M − H1, Q4 = Annual − 9M), balance metrics taken from each
quarter's own snapshot. -/
def make_quarter_single (s : PeriodSeries) : QuarterSingles where
  q1 :=
    { revenue := _v s.q1 CanonicalMetrics.revenue
      operating_income := _v s.q1 CanonicalMetrics.operating_income
      net_income := _v s.q1 CanonicalMetrics.net_income
      equity := _v s.q1 CanonicalMetrics.equity
      liabilities := _v s.q1 CanonicalMetrics.liabilities
      assets := _v s.q1 CanonicalMetrics.assets }
  q2 :=
    { revenue := _sub (_v s.h1 CanonicalMetrics.revenue) (_v s.q1 CanonicalMetrics.revenue)
      operating_income :=
        _sub (_v s.h1 CanonicalMetrics.operating_income) (_v s.q1 CanonicalMetrics.operating_income)
      net_income := _sub (_v s.h1 CanonicalMetrics.net_income) (_v s.q1 CanonicalMetrics.net_income)
      equity := _v s.h1 CanonicalMetrics.equity
      liabilities := _v s.h1 CanonicalMetrics.liabilities
      assets := _v s.h1 CanonicalMetrics.assets }
  q3 :=
    { revenue := _sub (_v s.q3 CanonicalMetrics.revenue) (_v s.h1 CanonicalMetrics.revenue)
      operating_income :=
        _sub (_v s.q3 CanonicalMetrics.operating_income) (_v s.h1 CanonicalMetrics.operating_income)
      net_income := _sub (_v s.q3 CanonicalMetrics.net_income) (_v s.h1 CanonicalMetrics.net_income)
      equity := _v s.q3 CanonicalMetrics.equity
      liabilities := _v s.q3 CanonicalMetrics.liabilities
      assets := _v s.q3 CanonicalMetrics.assets }
  q4 :=
    { revenue := _sub (_v s.annual CanonicalMetrics.revenue) (_v s.q3 CanonicalMetrics.revenue)
      operating_income :=
        _sub (_v s.annual CanonicalMetrics.operating_income)
          (_v s.q3 CanonicalMetrics.operating_income)
      net_income :=
        _sub (_v s.annual CanonicalMetrics.net_income) (_v s.q3 CanonicalMetrics.net_income)
      equity := _v s.annual CanonicalMetrics.equity
      liabilities := _v s.annual CanonicalMetrics.liabilities
      assets := _v s.annual CanonicalMetrics.assets }

/-! ### Retrying HTTP client

`_get_with_retry` appears in both collector_dart.py and collector_v1.py
with one behavioural difference on a non-200, non-retryable status:
collector_v1.py returns `None` at once, collector_dart.py falls off the
end of the `try` block and the `for` loop simply proceeds to the next
attempt (no sleep, no backoff doubling).  One attempt's observable
outcome is abstracted as an `HttpOutcome`; the run records the result
(the index of the attempt whose response was returned), the number of
rate-limiter tokens acquired, and the sequence of backoff sleeps. -/

/-- Outcome of one `_session.get` attempt. -/
inductive HttpOutcome where
  | status (code : Nat)
  | timeout
  | connError
  | otherError
deriving DecidableEq, Repr

/-- `resp.status_code in (429, 500, 502, 503)`. -/
def retryStatus (c : Nat) : Bool := c = 429 || c = 500 || c = 502 || c = 503

/-- Observable trace of one `_get_with_retry` run. -/
structure RetryRun where
  result : Option Nat
  tokens : Nat
  sleeps : List ℚ
deriving DecidableEq, Repr

/-- Loop of collector_dart.py's `_get_with_retry`: token, request,
return on 200, sleep-and-double on timeout / connection error / other
exception / retryable status, and plain fall-through (next attempt, no
sleep) on any other status. -/
def dartLoop (f : Nat → HttpOutcome) : Nat → ℚ → Nat → Nat → List ℚ → RetryRun
  | 0, _, _, t, s => ⟨none, t, s⟩
  | fuel + 1, b, i, t, s =>
    match f i with
    | .status c =>
      if c = 200 then ⟨some i, t + 1, s⟩
      else if retryStatus c then dartLoop f fuel (b * 2) (i + 1) (t + 1) (s ++ [b])
      else dartLoop f fuel b (i + 1) (t + 1) s
    | _ => dartLoop f fuel (b * 2) (i + 1) (t + 1) (s ++ [b])

/-- `_get_with_retry(url, params, max_retry)` of collector_dart.py,
with `backoff = 0.5`. -/
def get_with_retry_dart (f : Nat → HttpOutcome) (max_retry : Nat) : RetryRun :=
  dartLoop f max_retry (1 / 2) 0 0 []

/-- Loop of collector_v1.py's `_get_with_retry`: identical except that a
non-200, non-retryable status returns `None` immediately. -/
def v1Loop (f : Nat → HttpOutcome) : Nat → ℚ → Nat → Nat → List ℚ → RetryRun
  | 0, _, _, t, s => ⟨none, t, s⟩
  | fuel + 1, b, i, t, s =>
    match f i with
    | .status c =>
      if c = 200 then ⟨some i, t + 1, s⟩
      else if retryStatus c then v1Loop f fuel (b * 2) (i + 1) (t + 1) (s ++ [b])
      else ⟨none, t + 1, s⟩
    | _ => v1Loop f fuel (b * 2) (i + 1) (t + 1) (s ++ [b])

/-- `_get_with_retry(url, params, max_retry)` of collector_v1.py. -/
def get_with_retry_v1 (f : Nat → HttpOutcome) (max_retry : Nat) : RetryRun :=
  v1Loop f max_retry (1 / 2) 0 0 []

/-- An outcome on which both clients retry with a backoff sleep:
timeout, connection failure, any other exception, or a retryable
status. -/
def retryableFail : HttpOutcome → Bool
  | .status c => retryStatus c
  | _ => true

/-- The expected backoff sleeps of `n` consecutive retryable failures:
0.5, 1, 2, ... -/
def geomSleeps (n : Nat) : List ℚ :=
  (List.range n).map (fun i => (1 / 2 : ℚ) * 2 ^ i)

/-! ### Task scheduler, worker and output rows

`collect_financials` submits every task to the pool exactly once; the
`ThreadPoolExecutor` context waits for all workers even after the result
loop breaks on `LIMIT`, and the budget counter and the sets are only
touched under `api_calls_lock` (or are thread-safe set additions), so a
run is modelled as a sequential fold of the worker body over the task
list, each task paired with the network responses its fetch would see. -/

/-- One task `(ticker, corp_code, year, reprt_code, q_name)`. -/
structure FetchTask where
  ticker : String
  corp_code : String
  year : String
  reprt_code : String
  q_name : String
deriving DecidableEq, Repr

/-- The checkpoint key `f"{ticker}-{year}-{q_name}"`. -/
def taskKey (t : FetchTask) : String := t.ticker ++ "-" ++ t.year ++ "-" ++ t.q_name

/-- The existing-record key `(ticker, year, q_name)`. -/
def existKey (t : FetchTask) : String × String × String := (t.ticker, t.year, t.q_name)

/-- Return value of the worker closure: `None` (skip), `"LIMIT"`, or the
result tuple. -/
inductive WorkerResult where
  | skipped
  | limit
  | row (ticker corp_code year q_name : String) (fin : CanonicalMetrics)
deriving DecidableEq, Repr

/-- The shared mutable state the worker touches: `api_calls_left` and
the in-memory completion set `done_today` (kept as the list of keys in
completion order). -/
structure SchedState where
  api_calls_left : Int
  done_today : List String
deriving DecidableEq, Repr

/-- `take_calls(n)`: refuse when fewer than `n` calls remain, else
reserve `n`. -/
def take_calls (n : Int) (st : SchedState) : Bool × SchedState :=
  if st.api_calls_left < n then (false, st)
  else (true, { st with api_calls_left := st.api_calls_left - n })

/-- The worker body: skip a checkpointed or (when `skip_if_exists`)
already-present task, else reserve two calls (answering `"LIMIT"` when
refused), fetch, credit the unused part of the reservation back, and
record the key in `done_today`.  The third component counts the network
calls this execution performed. -/
def worker (done : List String) (existing : List (String × String × String))
    (skip_if_exists treat_operating_revenue_as_sales fs_div_only_cfs : Bool)
    (task : FetchTask) (net : StatementFetch) (st : SchedState) :
    WorkerResult × SchedState × Nat :=
  if taskKey task ∈ done then (.skipped, st, 0)
  else if skip_if_exists ∧ existKey task ∈ existing then (.skipped, st, 0)
  else
    let tk := take_calls 2 st
    if tk.1 = false then (.limit, tk.2, 0)
    else
      let fc := fetch_financials treat_operating_revenue_as_sales fs_div_only_cfs
        (some task.ticker) net
      let unused : Int := 2 - (fc.2 : Int)
      let st2 :=
        if 0 < unused then { tk.2 with api_calls_left := tk.2.api_calls_left + unused }
        else tk.2
      (WorkerResult.row task.ticker task.corp_code task.year task.q_name fc.1,
       { st2 with done_today := st2.done_today ++ [taskKey task] }, fc.2)

/-- Sequential fold of the worker over the submitted tasks, returning
the final shared state and each task's worker result in order. -/
def mainPass (done : List String) (existing : List (String × String × String))
    (skip_if_exists treat_operating_revenue_as_sales fs_div_only_cfs : Bool) :
    List (FetchTask × StatementFetch) → SchedState → SchedState × List (FetchTask × WorkerResult)
  | [], st => (st, [])
  | (t, net) :: rest, st =>
    let w := worker done existing skip_if_exists treat_operating_revenue_as_sales
      fs_div_only_cfs t net st
    let m := mainPass done existing skip_if_exists treat_operating_revenue_as_sales
      fs_div_only_cfs rest w.2.1
    (m.1, (t, w.1) :: m.2)

/-- `save_checkpoint(done.union(done_today))`: the persisted checkpoint
is the loaded set together with this run's completions. -/
def savedCheckpoint (done : List String) (st : SchedState) : List String :=
  done ++ st.done_today

/-- The keys of the tasks whose worker actually dispatched a fetch
(result tuple rather than a skip or a refusal), in task order. -/
def dispatchedKeys (results : List (FetchTask × WorkerResult)) : List String :=
  results.filterMap (fun tr =>
    match tr.2 with
    | .row _ _ _ _ _ => some (taskKey tr.1)
    | _ => none)

/-- One appended spreadsheet row
`[ticker, corp_code, year, quarter, date, 매출액, 영업이익, 당기순이익, 자기자본, 부채총계, 자산총계]`;
`_cell` turns `None` into an empty cell, kept here as `Option Int`. -/
structure OutRow where
  ticker : String
  corp_code : String
  year : String
  quarter : String
  date : String
  revenue : Option Int
  operating_income : Option Int
  net_income : Option Int
  equity : Option Int
  liabilities : Option Int
  assets : Option Int
deriving DecidableEq, Repr

/-- One accumulator entry `acc[(ticker, year)]` with its corp code and
period series. -/
structure AccEntry where
  ticker : String
  year : String
  corp_code : String
  series : PeriodSeries
deriving DecidableEq, Repr

/-- The four derived quarters in output order. -/
def quarterList (qs : QuarterSingles) : List (String × CanonicalMetrics) :=
  [("Q1", qs.q1), ("Q2", qs.q2), ("Q3", qs.q3), ("Q4", qs.q4)]

/-- The rows `collect_financials` appends for one accumulator entry:
skip a quarter already present in the sheet, skip a quarter whose three
core metrics are all absent, and emit the row otherwise. -/
def rowsForEntry (existing : List (String × String × String)) (e : AccEntry) : List OutRow :=
  (quarterList (make_quarter_single e.series)).filterMap (fun qc =>
    if (e.ticker, e.year, qc.1) ∈ existing then none
    else if qc.2.revenue = none ∧ qc.2.operating_income = none ∧ qc.2.net_income = none then
      none
    else
      some ⟨e.ticker, e.corp_code, e.year, qc.1, e.year ++ "-" ++ qc.1,
            qc.2.revenue, qc.2.operating_income, qc.2.net_income,
            qc.2.equity, qc.2.liabilities, qc.2.assets⟩)

/-- All rows appended by the final loop of `collect_financials`. -/
def buildRows (existing : List (String × String × String)) (acc : List AccEntry) : List OutRow :=
  acc.flatMap (rowsForEntry existing)

/-! ## Theorems -/

/-- `_sub` is absent as soon as either operand is. -/
lemma sub_none {a b : Option Int} (h : a = none ∨ b = none) : _sub a b = none := by
  rcases h with h | h
  · subst h; cases b <;> rfl
  · subst h; cases a <;> rfl

/-- End-to-end scenario B: revenue 100 / 250 / absent / 500 over the
four cumulative snapshots 
(the nine-month snapshot is present but its revenue is absent). -/
def scenarioB : PeriodSeries :=
  { q1 := some ⟨some 100, none, none, none, none, none⟩
    h1 := some ⟨some 250, none, none, none, none, none⟩
    q3 := some allAbsent
    annual := some ⟨some 500, none, none, none, none, none⟩ }

/-- C1: for every `PeriodSeries` and every flow metric, an absent
operand of a quarter's difference makes `make_quarter_single` yield
absent for that quarter (never zero); and scenario B differences to
Q1 = 100, Q2 = 150, Q3 = absent, Q4 = absent. -/
theorem C1_flow_absence_propagation :
    (∀ (s : PeriodSeries) (f : CanonicalMetrics → Option Int),
      f = CanonicalMetrics.revenue ∨ f = CanonicalMetrics.operating_income ∨
        f = CanonicalMetrics.net_income →
      ((_v s.h1 f = none ∨ _v s.q1 f = none) → f (make_quarter_single s).q2 = none) ∧
      ((_v s.q3 f = none ∨ _v s.h1 f = none) → f (make_quarter_single s).q3 = none) ∧
      ((_v s.annual f = none ∨ _v s.q3 f = none) → f (make_quarter_single s).q4 = none)) ∧
    make_quarter_single scenarioB =
      ⟨⟨some 100, none, none, none, none, none⟩,
       ⟨some 150, none, none, none, none, none⟩, allAbsent, allAbsent⟩ := by
  constructor
  · intro s f hf
    have hq2 : f (make_quarter_single s).q2 = _sub (_v s.h1 f) (_v s.q1 f) := by
      rcases hf with h | h | h <;> subst h <;> rfl
    have hq3 : f (make_quarter_single s).q3 = _sub (_v s.q3 f) (_v s.h1 f) := by
      rcases hf with h | h | h <;> subst h <;> rfl
    have hq4 : f (make_quarter_single s).q4 = _sub (_v s.annual f) (_v s.q3 f) := by
      rcases hf with h | h | h <;> subst h <;> rfl
    exact ⟨fun hc => by rw [hq2]; exact sub_none hc,
           fun hc => by rw [hq3]; exact sub_none hc,
           fun hc => by rw [hq4]; exact sub_none hc⟩
  · decide

/-- Witness for C1: scenario B's Q3 revenue is absent because the
nine-month snapshot's revenue is absent. -/
theorem C1_witness : (make_quarter_single scenarioB).q3.revenue = none :=
  (C1_flow_absence_propagation.1 scenarioB CanonicalMetrics.revenue (Or.inl rfl)).2.1
    (Or.inl rfl)

/-- C2: with the needed cumulative snapshots present, every flow metric
is produced by exact integer subtraction (Q1 as is, Q2 = H1 − Q1,
Q3 = 9M − H1, Q4 = Annual − 9M), and every balance metric is copied
from the quarter's own cumulative snapshot, never differenced. -/
theorem C2_exact_subtraction_and_balances :
    ∀ s : PeriodSeries,
      (∀ f : CanonicalMetrics → Option Int,
        f = CanonicalMetrics.revenue ∨ f = CanonicalMetrics.operating_income ∨
          f = CanonicalMetrics.net_income →
        f (make_quarter_single s).q1 = _v s.q1 f ∧
        (∀ a b : Int, _v s.q1 f = some a → _v s.h1 f = some b →
          f (make_quarter_single s).q2 = some (b - a)) ∧
        (∀ a b : Int, _v s.h1 f = some a → _v s.q3 f = some b →
          f (make_quarter_single s).q3 = some (b - a)) ∧
        (∀ a b : Int, _v s.q3 f = some a → _v s.annual f = some b →
          f (make_quarter_single s).q4 = some (b - a))) ∧
      (∀ g : CanonicalMetrics → Option Int,
        g = CanonicalMetrics.assets ∨ g = CanonicalMetrics.liabilities ∨
          g = CanonicalMetrics.equity →
        g (make_quarter_single s).q1 = _v s.q1 g ∧
        g (make_quarter_single s).q2 = _v s.h1 g ∧
        g (make_quarter_single s).q3 = _v s.q3 g ∧
        g (make_quarter_single s).q4 = _v s.annual g) := by
  intro s
  constructor
  · intro f hf
    have e1 : f (make_quarter_single s).q1 = _v s.q1 f := by
      rcases hf with h | h | h <;> subst h <;> rfl
    have e2 : f (make_quarter_single s).q2 = _sub (_v s.h1 f) (_v s.q1 f) := by
      rcases hf with h | h | h <;> subst h <;> rfl
    have e3 : f (make_quarter_single s).q3 = _sub (_v s.q3 f) (_v s.h1 f) := by
      rcases hf with h | h | h <;> subst h <;> rfl
    have e4 : f (make_quarter_single s).q4 = _sub (_v s.annual f) (_v s.q3 f) := by
      rcases hf with h | h | h <;> subst h <;> rfl
    refine ⟨e1, ?_, ?_, ?_⟩
    · intro a b ha hb; rw [e2, ha, hb]; rfl
    · intro a b ha hb; rw [e3, ha, hb]; rfl
    · intro a b ha hb; rw [e4, ha, hb]; rfl
  · intro g hg
    rcases hg with h | h | h <;> subst h <;> exact ⟨rfl, rfl, rfl, rfl⟩

/-- Witness for C2: on scenario B, Q2 revenue is exactly 250 − 100. -/
theorem C2_witness : (make_quarter_single scenarioB).q2.revenue = some (250 - 100) :=
  ((C2_exact_subtraction_and_balances scenarioB).1 CanonicalMetrics.revenue
    (Or.inl rfl)).2.1 100 250 rfl rfl

/-- C8: a task whose key is already in the loaded checkpoint set is
answered `None` by the worker with zero network calls and the shared
state (budget and completion set) unchanged. -/
theorem C8_checkpointed_task_is_skipped :
    ∀ (done : List String) (existing : List (String × String × String))
      (skip_if_exists treat oc : Bool) (task : FetchTask) (net : StatementFetch)
      (st : SchedState),
      taskKey task ∈ done →
      worker done existing skip_if_exists treat oc task net st =
        (WorkerResult.skipped, st, 0) := by
  intro done existing sk tr oc task net st h
  simp [worker, h]

/-- Witness for C8: a concrete checkpointed task is skipped with zero
calls from a budget of 10. -/
theorem C8_witness :
    taskKey ⟨"005930", "00126380", "2024", "11013", "Q1"⟩ ∈ ["005930-2024-Q1"] ∧
    worker ["005930-2024-Q1"] [] true true true
        ⟨"005930", "00126380", "2024", "11013", "Q1"⟩ ⟨none, none⟩ ⟨10, []⟩ =
      (WorkerResult.skipped, ⟨10, []⟩, 0) :=
  ⟨by decide, C8_checkpointed_task_is_skipped _ _ _ _ _ _ _ _ (by decide)⟩

/-- A period snapshot carrying no data: the accumulator key is missing,
or the fetch came back all-absent. -/
def periodAbsent (p : Option CanonicalMetrics) : Prop := p = none ∨ p = some allAbsent

lemma sub_none_left (b : Option Int) : _sub none b = none := by cases b <;> rfl

lemma sub_none_right (a : Option Int) : _sub a none = none := by cases a <;> rfl

lemma v_rev_absent {p : Option CanonicalMetrics} (h : periodAbsent p) :
    _v p CanonicalMetrics.revenue = none := by
  rcases h with h | h <;> subst h <;> rfl

lemma v_op_absent {p : Option CanonicalMetrics} (h : periodAbsent p) :
    _v p CanonicalMetrics.operating_income = none := by
  rcases h with h | h <;> subst h <;> rfl

lemma v_ni_absent {p : Option CanonicalMetrics} (h : periodAbsent p) :
    _v p CanonicalMetrics.net_income = none := by
  rcases h with h | h <;> subst h <;> rfl

/-- C10: every row the main pass appends has at least one of the three
core metrics present — a quarter whose core metrics are all absent is
skipped — and an entry whose fetched snapshots are all absent
contributes no row at all. -/
theorem C10_appended_rows_have_core_metric :
    (∀ (existing : List (String × String × String)) (acc : List AccEntry) (r : OutRow),
      r ∈ buildRows existing acc →
      ¬(r.revenue = none ∧ r.operating_income = none ∧ r.net_income = none)) ∧
    (∀ (existing : List (String × String × String)) (e : AccEntry),
      periodAbsent e.series.q1 → periodAbsent e.series.h1 →
      periodAbsent e.series.q3 → periodAbsent e.series.annual →
      rowsForEntry existing e = []) := by
  constructor
  · intro existing acc r hr
    simp only [buildRows, List.mem_flatMap] at hr
    obtain ⟨e, _, hre⟩ := hr
    simp only [rowsForEntry, List.mem_filterMap] at hre
    obtain ⟨qc, _, hq⟩ := hre
    by_cases h1 : (e.ticker, e.year, qc.1) ∈ existing
    · simp [h1] at hq
    · by_cases h2 : qc.2.revenue = none ∧ qc.2.operating_income = none ∧ qc.2.net_income = none
      · simp [h1, h2] at hq
      · simp only [if_neg h1, if_neg h2, Option.some.injEq] at hq
        subst hq
        exact h2
  · intro existing e h1 h2 h3 h4
    simp [rowsForEntry, quarterList, make_quarter_single, List.filterMap,
      v_rev_absent h1, v_op_absent h1, v_ni_absent h1,
      v_rev_absent h2, v_op_absent h2, v_ni_absent h2,
      v_rev_absent h3, v_op_absent h3, v_ni_absent h3,
      v_rev_absent h4, v_op_absent h4, v_ni_absent h4,
      sub_none_right, sub_none_left]

/-- Witness for C10: an entry with all snapshots absent yields no rows. -/
theorem C10_witness :
    rowsForEntry [] ⟨"005930", "2024", "00126380", ⟨none, some allAbsent, none, none⟩⟩ = [] :=
  (C10_appended_rows_have_core_metric.2 []
      ⟨"005930", "2024", "00126380", ⟨none, some allAbsent, none, none⟩⟩
      (Or.inl rfl) (Or.inr rfl) (Or.inl rfl) (Or.inl rfl))

/-- The consolidated response of end-to-end scenario A: a revenue item
(identifier plus name 매출액, amount "1,000,000") and an
operating-income item (identifier only, amount "200,000"). -/
def scenarioA : StatementFetch :=
  { cfs := some [⟨some "ifrs-full_Revenue", none, some "매출액", some "1,000,000"⟩,
                 ⟨some "ifrs-full_OperatingIncomeLoss", none, none, some "200,000"⟩]
    ofs := none }

/-- C3: `fetch_financials` makes one CFS request, makes the second OFS
request exactly when all three core metrics of the CFS result are
absent and the consolidated-only flag is unset or the ticker starts
with "900"; a non-`None` OFS result replaces the CFS result; when
neither division yields usable items the result is the all-absent
record rather than a failure; and on scenario A it returns
revenue = 1000000, operating income = 200000, net income absent with a
single call. -/
theorem C3_fetch_fallback_policy :
    (∀ (treat oc : Bool) (ticker : Option String) (net : StatementFetch),
      (fetch_financials treat oc ticker net).2 =
        if (coreMissing (_one treat net.cfs) && ofsAllowed oc ticker) = true then 2 else 1) ∧
    (∀ (treat oc : Bool) (ticker : Option String) (net : StatementFetch)
      (m : CanonicalMetrics),
      (coreMissing (_one treat net.cfs) && ofsAllowed oc ticker) = true →
      _one treat net.ofs = some m →
      (fetch_financials treat oc ticker net).1 = m) ∧
    (∀ (treat oc : Bool) (ticker : Option String) (net : StatementFetch),
      _one treat net.cfs = none → _one treat net.ofs = none →
      fetch_financials treat oc ticker net =
        (allAbsent, if ofsAllowed oc ticker = true then 2 else 1)) ∧
    fetch_financials true true (some "005930") scenarioA =
      (⟨some 1000000, some 200000, none, none, none, none⟩, 1) := by
  refine ⟨?_, ?_, ?_, by decide⟩
  · intro treat oc ticker net
    by_cases h : (coreMissing (_one treat net.cfs) && ofsAllowed oc ticker) = true
    · simp [fetch_financials, h]
    · simp [fetch_financials, h]
  · intro treat oc ticker net m h hofs
    simp [fetch_financials, h, hofs]
  · intro treat oc ticker net hc ho
    by_cases h : ofsAllowed oc ticker = true
    · simp [fetch_financials, hc, ho, coreMissing, h]
    · simp [fetch_financials, hc, ho, coreMissing, h]

/-- Witness for C3: both divisions failing yields the all-absent record
with the call count given by the fallback guard. -/
theorem C3_witness :
    fetch_financials true false none ⟨none, none⟩ =
      (allAbsent, if ofsAllowed false none = true then 2 else 1) :=
  C3_fetch_fallback_policy.2.2.1 true false none ⟨none, none⟩ rfl rfl

lemma dropWhile_idem (p : Char → Bool) (l : List Char) :
    List.dropWhile p (List.dropWhile p l) = List.dropWhile p l := by
  induction l with
  | nil => rfl
  | cons c cs ih =>
    by_cases h : p c
    · simpa [List.dropWhile_cons, h] using ih
    · simp [List.dropWhile_cons, h]

/-- A list fixed by `dropWhile p` cannot start with a `p`-character. -/
lemma head_not_p_of_dropWhile_fix (p : Char → Bool) (m : List Char) (c : Char)
    (cs t : List Char) (hm : List.dropWhile p m = m) (hmc : m = c :: (cs ++ t)) :
    p c = false := by
  by_contra hcon
  have hpc1 : p c = true := by simpa using hcon
  have h1 : List.dropWhile p m = List.dropWhile p (cs ++ t) := by
    rw [hmc]; simp [List.dropWhile_cons, hpc1]
  have h2 : (List.dropWhile p (cs ++ t)).length ≤ (cs ++ t).length :=
    (List.dropWhile_sublist _).length_le
  rw [hm] at h1
  have h3 : m.length = (cs ++ t).length + 1 := by rw [hmc]; simp
  rw [← h1] at h2
  omega

/-- Trimming trailing characters cannot create a leading one: if `m`
has no leading `p`-character, neither has `m` with its `p`-tail
removed. -/
lemma dropWhile_end_trim (p : Char → Bool) (m : List Char)
    (hm : List.dropWhile p m = m) :
    List.dropWhile p ((List.dropWhile p m.reverse).reverse) =
      (List.dropWhile p m.reverse).reverse := by
  have ht : (List.dropWhile p m.reverse).reverse ++ (List.takeWhile p m.reverse).reverse = m := by
    rw [← List.reverse_append, List.takeWhile_append_dropWhile, List.reverse_reverse]
  generalize hR : (List.dropWhile p m.reverse).reverse = r at ht ⊢
  generalize hT : (List.takeWhile p m.reverse).reverse = t at ht
  cases r with
  | nil => simp
  | cons c cs =>
    have hpc : p c = false :=
      head_not_p_of_dropWhile_fix p m c cs t hm (by rw [← ht]; simp)
    simp [List.dropWhile_cons, hpc]

lemma pyStripL_idem (l : List Char) : pyStripL (pyStripL l) = pyStripL l := by
  unfold pyStripL
  rw [dropWhile_end_trim isWS (List.dropWhile isWS l) (dropWhile_idem isWS l),
    List.reverse_reverse, dropWhile_idem]

lemma pyStripL_sub (l : List Char) : ∀ c, c ∈ pyStripL l → c ∈ l := by
  intro c hc
  unfold pyStripL at hc
  rw [List.mem_reverse] at hc
  have h1 : c ∈ (List.dropWhile isWS l).reverse :=
    List.Sublist.mem hc (List.dropWhile_sublist _)
  rw [List.mem_reverse] at h1
  exact List.Sublist.mem h1 (List.dropWhile_sublist _)

lemma removeCommas_nocomma {l : List Char} (h : ∀ c ∈ l, (c != ',') = true) :
    removeCommas l = l := List.filter_eq_self.mpr h

lemma mem_removeCommas {c : Char} {l : List Char} (h : c ∈ removeCommas l) :
    (c != ',') = true ∧ c ∈ l := by
  have h1 := List.mem_filter.mp h
  exact ⟨h1.2, h1.1⟩

lemma removeCommas_idem (l : List Char) :
    removeCommas (removeCommas l) = removeCommas l :=
  removeCommas_nocomma (fun _ hc => (mem_removeCommas hc).1)

/-- Stripping commas and whitespace is a fixed point of itself. -/
lemma stripCW_fix (l : List Char) :
    pyStripL (removeCommas (pyStripL (removeCommas l))) = pyStripL (removeCommas l) := by
  rw [removeCommas_nocomma (fun c hc => (mem_removeCommas (pyStripL_sub _ c hc)).1),
    pyStripL_idem]

lemma parse_amount_mk (l : List Char) :
    _parse_amount (some ⟨l⟩) =
      (if pyStripL (removeCommas l) = [] ∨ pyStripL (removeCommas l) = ['-'] ∨
          pyStripL (removeCommas l) = ['–'] then none
       else pyIntOfFloat (pyStripL (removeCommas l))) := rfl

/-- C7: `_parse_amount` gives the same integer on a string and on its
comma-free (or comma-free and whitespace-stripped) form; it maps the
empty string, a lone dash and an en-dash (and a missing value) to
absent; and on every other input it is exactly the truncating numeric
parse, which is absent on parse failure. -/
theorem C7_parse_amount_properties :
    (∀ s : String, _parse_amount (some s) = _parse_amount (some ⟨removeCommas s.data⟩)) ∧
    (∀ s : String,
      _parse_amount (some s) = _parse_amount (some ⟨pyStripL (removeCommas s.data)⟩)) ∧
    (_parse_amount (some "") = none ∧ _parse_amount (some "-") = none ∧
      _parse_amount (some "–") = none ∧ _parse_amount none = none) ∧
    (∀ s : String,
      pyStripL (removeCommas s.data) ≠ [] →
      pyStripL (removeCommas s.data) ≠ ['-'] →
      pyStripL (removeCommas s.data) ≠ ['–'] →
      _parse_amount (some s) = pyIntOfFloat (pyStripL (removeCommas s.data))) ∧
    (_parse_amount (some "1,234.9") = some 1234 ∧
      _parse_amount (some "1234.9") = some 1234) := by
  refine ⟨?_, ?_, by decide, ?_, by decide⟩
  · intro s
    cases s with
    | mk l =>
      show _parse_amount (some ⟨l⟩) = _parse_amount (some ⟨removeCommas l⟩)
      rw [parse_amount_mk, parse_amount_mk, removeCommas_idem]
  · intro s
    cases s with
    | mk l =>
      show _parse_amount (some ⟨l⟩) = _parse_amount (some ⟨pyStripL (removeCommas l)⟩)
      rw [parse_amount_mk, parse_amount_mk, stripCW_fix]
  · intro s h1 h2 h3
    cases s with
    | mk l =>
      show _parse_amount (some ⟨l⟩) = pyIntOfFloat (pyStripL (removeCommas l))
      rw [parse_amount_mk, if_neg]
      push_neg
      exact ⟨h1, h2, h3⟩

/-- Witness for C7: the non-dash, non-empty string "abc" is handed to
the numeric parse (which fails, so the amount is absent). -/
theorem C7_witness :
    pyStripL (removeCommas ("abc" : String).data) ≠ [] ∧
    _parse_amount (some "abc") = pyIntOfFloat (pyStripL (removeCommas ("abc" : String).data)) :=
  ⟨by decide,
   C7_parse_amount_properties.2.2.2.1 "abc" (by decide) (by decide) (by decide)⟩

/-- `200` is a Python success, everything else an attempt failure. -/
def isSuccess : HttpOutcome → Bool
  | .status c => c = 200
  | _ => false

lemma retryStatus_iff {c : Nat} :
    retryStatus c = true ↔ c = 429 ∨ c = 500 ∨ c = 502 ∨ c = 503 := by
  simp [retryStatus]
  tauto

lemma retryStatus_ne_200 {c : Nat} (h : retryStatus c = true) : c ≠ 200 := by
  rcases retryStatus_iff.mp h with h1 | h1 | h1 | h1 <;> omega

lemma geom_shift (b : ℚ) (m : Nat) :
    b :: (List.range m).map (fun j => b * 2 * 2 ^ j) =
      (List.range (m + 1)).map (fun j => b * 2 ^ j) := by
  rw [List.range_succ_eq_map, List.map_cons, List.map_map]
  refine congrArg₂ List.cons (by norm_num) (List.map_congr_left ?_)
  intro j _
  simp only [Function.comp_apply, pow_succ]
  ring

lemma v1Loop_exhaust (f : Nat → HttpOutcome) :
    ∀ (n : Nat) (b : ℚ) (i t : Nat) (s : List ℚ),
      (∀ j, j < n → retryableFail (f (i + j)) = true) →
      v1Loop f n b i t s = ⟨none, t + n, s ++ (List.range n).map (fun j => b * 2 ^ j)⟩ := by
  intro n
  induction n with
  | zero => intro b i t s _; simp [v1Loop]
  | succ m ih =>
    intro b i t s h
    have h0 : retryableFail (f i) = true := by simpa using h 0 (Nat.succ_pos m)
    have hrec : ∀ j, j < m → retryableFail (f (i + 1 + j)) = true := by
      intro j hj
      have h1 := h (j + 1) (Nat.succ_lt_succ hj)
      have h2 : i + (j + 1) = i + 1 + j := by omega
      rwa [h2] at h1
    have hgoal : v1Loop f (m + 1) b i t s = v1Loop f m (b * 2) (i + 1) (t + 1) (s ++ [b]) := by
      cases hf : f i with
      | status c =>
        have hr : retryStatus c = true := by
          have := h0; rwa [hf] at this
        rw [v1Loop, hf]
        simp [retryStatus_ne_200 hr, hr]
      | timeout => rw [v1Loop, hf]
      | connError => rw [v1Loop, hf]
      | otherError => rw [v1Loop, hf]
    rw [hgoal, ih (b * 2) (i + 1) (t + 1) (s ++ [b]) hrec]
    have harith : t + 1 + m = t + (m + 1) := by omega
    rw [harith, List.append_assoc, List.singleton_append, geom_shift]

lemma dartLoop_exhaust (f : Nat → HttpOutcome) :
    ∀ (n : Nat) (b : ℚ) (i t : Nat) (s : List ℚ),
      (∀ j, j < n → retryableFail (f (i + j)) = true) →
      dartLoop f n b i t s = ⟨none, t + n, s ++ (List.range n).map (fun j => b * 2 ^ j)⟩ := by
  intro n
  induction n with
  | zero => intro b i t s _; simp [dartLoop]
  | succ m ih =>
    intro b i t s h
    have h0 : retryableFail (f i) = true := by simpa using h 0 (Nat.succ_pos m)
    have hrec : ∀ j, j < m → retryableFail (f (i + 1 + j)) = true := by
      intro j hj
      have h1 := h (j + 1) (Nat.succ_lt_succ hj)
      have h2 : i + (j + 1) = i + 1 + j := by omega
      rwa [h2] at h1
    have hgoal : dartLoop f (m + 1) b i t s = dartLoop f m (b * 2) (i + 1) (t + 1) (s ++ [b]) := by
      cases hf : f i with
      | status c =>
        have hr : retryStatus c = true := by
          have := h0; rwa [hf] at this
        rw [dartLoop, hf]
        simp [retryStatus_ne_200 hr, hr]
      | timeout => rw [dartLoop, hf]
      | connError => rw [dartLoop, hf]
      | otherError => rw [dartLoop, hf]
    rw [hgoal, ih (b * 2) (i + 1) (t + 1) (s ++ [b]) hrec]
    have harith : t + 1 + m = t + (m + 1) := by omega
    rw [harith, List.append_assoc, List.singleton_append, geom_shift]

lemma v1Loop_success (f : Nat → HttpOutcome) :
    ∀ (k n : Nat) (b : ℚ) (i t : Nat) (s : List ℚ),
      k < n →
      (∀ j, j < k → retryableFail (f (i + j)) = true) →
      isSuccess (f (i + k)) = true →
      v1Loop f n b i t s =
        ⟨some (i + k), t + k + 1, s ++ (List.range k).map (fun j => b * 2 ^ j)⟩ := by
  intro k
  induction k with
  | zero =>
    intro n b i t s hn _ hs
    cases n with
    | zero => omega
    | succ m =>
      cases hf : f i with
      | status c =>
        have hc : c = 200 := by
          have := hs
          rw [Nat.add_zero, hf] at this
          simpa [isSuccess] using this
        rw [v1Loop, hf]
        simp [hc]
      | timeout => rw [Nat.add_zero, hf] at hs; simp [isSuccess] at hs
      | connError => rw [Nat.add_zero, hf] at hs; simp [isSuccess] at hs
      | otherError => rw [Nat.add_zero, hf] at hs; simp [isSuccess] at hs
  | succ m ih =>
    intro n b i t s hn h hs
    cases n with
    | zero => omega
    | succ n1 =>
      have h0 : retryableFail (f i) = true := by simpa using h 0 (Nat.succ_pos m)
      have hrec : ∀ j, j < m → retryableFail (f (i + 1 + j)) = true := by
        intro j hj
        have h1 := h (j + 1) (Nat.succ_lt_succ hj)
        have h2 : i + (j + 1) = i + 1 + j := by omega
        rwa [h2] at h1
      have hs1 : isSuccess (f (i + 1 + m)) = true := by
        have h2 : i + (m + 1) = i + 1 + m := by omega
        rwa [h2] at hs
      have hgoal : v1Loop f (n1 + 1) b i t s = v1Loop f n1 (b * 2) (i + 1) (t + 1) (s ++ [b]) := by
        cases hf : f i with
        | status c =>
          have hr : retryStatus c = true := by
            have := h0; rwa [hf] at this
          rw [v1Loop, hf]
          simp [retryStatus_ne_200 hr, hr]
        | timeout => rw [v1Loop, hf]
        | connError => rw [v1Loop, hf]
        | otherError => rw [v1Loop, hf]
      rw [hgoal, ih n1 (b * 2) (i + 1) (t + 1) (s ++ [b]) (by omega) hrec hs1]
      have ha1 : i + 1 + m = i + (m + 1) := by omega
      have ha2 : t + 1 + m + 1 = t + (m + 1) + 1 := by omega
      rw [ha1, ha2, List.append_assoc, List.singleton_append, geom_shift]

lemma dartLoop_success (f : Nat → HttpOutcome) :
    ∀ (k n : Nat) (b : ℚ) (i t : Nat) (s : List ℚ),
      k < n →
      (∀ j, j < k → retryableFail (f (i + j)) = true) →
      isSuccess (f (i + k)) = true →
      dartLoop f n b i t s =
        ⟨some (i + k), t + k + 1, s ++ (List.range k).map (fun j => b * 2 ^ j)⟩ := by
  intro k
  induction k with
  | zero =>
    intro n b i t s hn _ hs
    cases n with
    | zero => omega
    | succ m =>
      cases hf : f i with
      | status c =>
        have hc : c = 200 := by
          have := hs
          rw [Nat.add_zero, hf] at this
          simpa [isSuccess] using this
        rw [dartLoop, hf]
        simp [hc]
      | timeout => rw [Nat.add_zero, hf] at hs; simp [isSuccess] at hs
      | connError => rw [Nat.add_zero, hf] at hs; simp [isSuccess] at hs
      | otherError => rw [Nat.add_zero, hf] at hs; simp [isSuccess] at hs
  | succ m ih =>
    intro n b i t s hn h hs
    cases n with
    | zero => omega
    | succ n1 =>
      have h0 : retryableFail (f i) = true := by simpa using h 0 (Nat.succ_pos m)
      have hrec : ∀ j, j < m → retryableFail (f (i + 1 + j)) = true := by
        intro j hj
        have h1 := h (j + 1) (Nat.succ_lt_succ hj)
        have h2 : i + (j + 1) = i + 1 + j := by omega
        rwa [h2] at h1
      have hs1 : isSuccess (f (i + 1 + m)) = true := by
        have h2 : i + (m + 1) = i + 1 + m := by omega
        rwa [h2] at hs
      have hgoal : dartLoop f (n1 + 1) b i t s =
          dartLoop f n1 (b * 2) (i + 1) (t + 1) (s ++ [b]) := by
        cases hf : f i with
        | status c =>
          have hr : retryStatus c = true := by
            have := h0; rwa [hf] at this
          rw [dartLoop, hf]
          simp [retryStatus_ne_200 hr, hr]
        | timeout => rw [dartLoop, hf]
        | connError => rw [dartLoop, hf]
        | otherError => rw [dartLoop, hf]
      rw [hgoal, ih n1 (b * 2) (i + 1) (t + 1) (s ++ [b]) (by omega) hrec hs1]
      have ha1 : i + 1 + m = i + (m + 1) := by omega
      have ha2 : t + 1 + m + 1 = t + (m + 1) + 1 := by omega
      rw [ha1, ha2, List.append_assoc, List.singleton_append, geom_shift]

lemma v1Loop_permanent (f : Nat → HttpOutcome) :
    ∀ (k n : Nat) (b : ℚ) (i t : Nat) (s : List ℚ) (c : Nat),
      k < n →
      (∀ j, j < k → retryableFail (f (i + j)) = true) →
      f (i + k) = .status c → c ≠ 200 → retryStatus c = false →
      v1Loop f n b i t s =
        ⟨none, t + k + 1, s ++ (List.range k).map (fun j => b * 2 ^ j)⟩ := by
  intro k
  induction k with
  | zero =>
    intro n b i t s c hn _ hf hc hr
    cases n with
    | zero => omega
    | succ m =>
      rw [Nat.add_zero] at hf
      rw [v1Loop, hf]
      simp [hc, hr]
  | succ m ih =>
    intro n b i t s c hn h hf hc hr
    cases n with
    | zero => omega
    | succ n1 =>
      have h0 : retryableFail (f i) = true := by simpa using h 0 (Nat.succ_pos m)
      have hrec : ∀ j, j < m → retryableFail (f (i + 1 + j)) = true := by
        intro j hj
        have h1 := h (j + 1) (Nat.succ_lt_succ hj)
        have h2 : i + (j + 1) = i + 1 + j := by omega
        rwa [h2] at h1
      have hf1 : f (i + 1 + m) = .status c := by
        have h2 : i + (m + 1) = i + 1 + m := by omega
        rwa [h2] at hf
      have hgoal : v1Loop f (n1 + 1) b i t s = v1Loop f n1 (b * 2) (i + 1) (t + 1) (s ++ [b]) := by
        cases hff : f i with
        | status c0 =>
          have hr0 : retryStatus c0 = true := by
            have := h0; rwa [hff] at this
          rw [v1Loop, hff]
          simp [retryStatus_ne_200 hr0, hr0]
        | timeout => rw [v1Loop, hff]
        | connError => rw [v1Loop, hff]
        | otherError => rw [v1Loop, hff]
      rw [hgoal, ih n1 (b * 2) (i + 1) (t + 1) (s ++ [b]) c (by omega) hrec hf1 hc hr]
      have ha2 : t + 1 + m + 1 = t + (m + 1) + 1 := by omega
      rw [ha2, List.append_assoc, List.singleton_append, geom_shift]

lemma dartLoop_nonretry_skip (f : Nat → HttpOutcome) :
    ∀ (k n : Nat) (b : ℚ) (i t : Nat) (s : List ℚ),
      k < n →
      (∀ j, j < k → ∃ c, f (i + j) = .status c ∧ c ≠ 200 ∧ retryStatus c = false) →
      isSuccess (f (i + k)) = true →
      dartLoop f n b i t s = ⟨some (i + k), t + k + 1, s⟩ := by
  intro k
  induction k with
  | zero =>
    intro n b i t s hn _ hs
    cases n with
    | zero => omega
    | succ m =>
      cases hf : f i with
      | status c =>
        have hc : c = 200 := by
          have := hs
          rw [Nat.add_zero, hf] at this
          simpa [isSuccess] using this
        rw [dartLoop, hf]
        simp [hc]
      | timeout => rw [Nat.add_zero, hf] at hs; simp [isSuccess] at hs
      | connError => rw [Nat.add_zero, hf] at hs; simp [isSuccess] at hs
      | otherError => rw [Nat.add_zero, hf] at hs; simp [isSuccess] at hs
  | succ m ih =>
    intro n b i t s hn h hs
    cases n with
    | zero => omega
    | succ n1 =>
      obtain ⟨c0, hf0, hc0, hr0⟩ := h 0 (Nat.succ_pos m)
      rw [Nat.add_zero] at hf0
      have hrec : ∀ j, j < m → ∃ c, f (i + 1 + j) = .status c ∧ c ≠ 200 ∧
          retryStatus c = false := by
        intro j hj
        have h1 := h (j + 1) (Nat.succ_lt_succ hj)
        have h2 : i + (j + 1) = i + 1 + j := by omega
        rwa [h2] at h1
      have hs1 : isSuccess (f (i + 1 + m)) = true := by
        have h2 : i + (m + 1) = i + 1 + m := by omega
        rwa [h2] at hs
      have hgoal : dartLoop f (n1 + 1) b i t s = dartLoop f n1 b (i + 1) (t + 1) s := by
        rw [dartLoop, hf0]
        simp [hc0, hr0]
      rw [hgoal, ih n1 b (i + 1) (t + 1) s (by omega) hrec hs1]
      have ha1 : i + 1 + m = i + (m + 1) := by omega
      have ha2 : t + 1 + m + 1 = t + (m + 1) + 1 := by omega
      rw [ha1, ha2]

/-- The attempt outcomes refuting C4 as stated: a 404 on the first
attempt, then a 200. -/
def f404then200 : Nat → HttpOutcome := fun i => if i = 0 then .status 404 else .status 200

/-- Counterexample to C4: collector_dart.py's `_get_with_retry` does
NOT treat a non-200, non-retryable status as a permanent failure — on
a 404 followed by a 200 it makes a second attempt (acquiring a second
rate-limiter token) and returns the second response, instead of
returning the `None` sentinel after one attempt. -/
theorem C4_counterexample :
    get_with_retry_dart f404then200 3 = ⟨some 1, 2, []⟩ ∧
    (get_with_retry_dart f404then200 3).result ≠ none ∧
    (get_with_retry_dart f404then200 3).tokens = 2 := by decide

/-- C4 (amended): both retry clients acquire a rate-limiter token
before every attempt, retry with sleeps 0.5, 1, 2, ... (doubling each
time) on timeout, connection failure, any other request exception and
HTTP 429/500/502/503, and return the `None` sentinel when the attempt
cap is exhausted; on any other non-200 status collector_v1.py returns
the `None` sentinel at once, while collector_dart.py proceeds to the
next attempt immediately, with no sleep and no backoff growth. -/
theorem C4_retry_policy :
    (∀ (f : Nat → HttpOutcome) (n : Nat),
      (∀ j, j < n → retryableFail (f j) = true) →
      get_with_retry_v1 f n = ⟨none, n, geomSleeps n⟩ ∧
      get_with_retry_dart f n = ⟨none, n, geomSleeps n⟩) ∧
    (∀ (f : Nat → HttpOutcome) (n k : Nat),
      k < n →
      (∀ j, j < k → retryableFail (f j) = true) →
      isSuccess (f k) = true →
      get_with_retry_v1 f n = ⟨some k, k + 1, geomSleeps k⟩ ∧
      get_with_retry_dart f n = ⟨some k, k + 1, geomSleeps k⟩) ∧
    (∀ (f : Nat → HttpOutcome) (n k c : Nat),
      k < n →
      (∀ j, j < k → retryableFail (f j) = true) →
      f k = .status c → c ≠ 200 → retryStatus c = false →
      get_with_retry_v1 f n = ⟨none, k + 1, geomSleeps k⟩) ∧
    (∀ (f : Nat → HttpOutcome) (n k : Nat),
      k < n →
      (∀ j, j < k → ∃ c, f j = .status c ∧ c ≠ 200 ∧ retryStatus c = false) →
      isSuccess (f k) = true →
      get_with_retry_dart f n = ⟨some k, k + 1, []⟩) := by
  refine ⟨?_, ?_, ?_, ?_⟩
  · intro f n h
    have hv := v1Loop_exhaust f n (1 / 2) 0 0 [] (by simpa using h)
    have hd := dartLoop_exhaust f n (1 / 2) 0 0 [] (by simpa using h)
    constructor
    · rw [get_with_retry_v1, hv]; simp [geomSleeps]
    · rw [get_with_retry_dart, hd]; simp [geomSleeps]
  · intro f n k hk h hs
    have hv := v1Loop_success f k n (1 / 2) 0 0 [] hk (by simpa using h) (by simpa using hs)
    have hd := dartLoop_success f k n (1 / 2) 0 0 [] hk (by simpa using h) (by simpa using hs)
    constructor
    · rw [get_with_retry_v1, hv]; simp [geomSleeps]
    · rw [get_with_retry_dart, hd]; simp [geomSleeps]
  · intro f n k c hk h hf hc hr
    have hv := v1Loop_permanent f k n (1 / 2) 0 0 [] c hk (by simpa using h)
      (by simpa using hf) hc hr
    rw [get_with_retry_v1, hv]; simp [geomSleeps]
  · intro f n k hk h hs
    have hd := dartLoop_nonretry_skip f k n (1 / 2) 0 0 [] hk (by simpa using h)
      (by simpa using hs)
    rw [get_with_retry_dart, hd]; simp

/-- Witness for the amended C4: two timeouts exhaust an attempt cap of
2 in both clients, with sleeps 0.5 and 1. -/
theorem C4_witness :
    get_with_retry_v1 (fun _ => HttpOutcome.timeout) 2 = ⟨none, 2, geomSleeps 2⟩ ∧
    get_with_retry_dart (fun _ => HttpOutcome.timeout) 2 = ⟨none, 2, geomSleeps 2⟩ :=
  C4_retry_policy.1 (fun _ => HttpOutcome.timeout) 2 (fun _ _ => rfl)

/-- The single line item refuting C5: its identifier is a revenue
identifier, its display name matches the operating-income pattern. -/
def dualFacedItem : RawLineItem :=
  ⟨some "ifrs-full_Revenue", none, some "영업이익", some "100"⟩

/-- Counterexample to C5: the `used` set keys by discriminator, not by
item, so one and the same underlying item (the only item in the list)
is consumed by id for the revenue category and again by name for the
operating-income category — two different metric categories receive
the same item's amount. -/
theorem C5_counterexample :
    (resolveItems true [dualFacedItem]).revenue = some 100 ∧
    (resolveItems true [dualFacedItem]).operating_income = some 100 := by decide

lemma pickById_key_fresh {id_set used : List String} :
    ∀ {items : List RawLineItem} {v : Int} {k : String},
      pickById id_set used items = some (v, k) → k ∉ used := by
  intro items
  induction items with
  | nil => intro v k h; simp [pickById] at h
  | cons it rest ih =>
    intro v k h
    rw [pickById] at h
    split at h
    · rename_i hg
      split at h
      · rename_i hp
        have hk : k = "id:" ++ aidOf it := by
          have := h
          simp at this
          exact this.2.symm
        rw [hk]
        exact hg.2.2
      · exact ih h
    · exact ih h

lemma pickByName_key_fresh {name_re : String → Bool} {used : List String} :
    ∀ {items : List RawLineItem} {v : Int} {k : String},
      pickByName name_re used items = some (v, k) → k ∉ used := by
  intro items
  induction items with
  | nil => intro v k h; simp [pickByName] at h
  | cons it rest ih =>
    intro v k h
    rw [pickByName] at h
    split at h
    · rename_i hg
      split at h
      · rename_i hp
        have hk : k = "nm:" ++ nmOf it := by
          have := h
          simp at this
          exact this.2.symm
        rw [hk]
        exact hg.2
      · exact ih h
    · exact ih h

/-- C5 (amended): every successful category match is recorded in the
`used` key set under its discriminator (`id:<identifier>` or
`nm:<name>`), and a key already in the set is never matched again — but
the same underlying item can still be handed to two categories when one
matches it by identifier and the other by display name, as the
counterexample shows. -/
theorem C5_used_key_not_reused :
    ∀ (items : List RawLineItem) (id_set : List String) (name_re : String → Bool)
      (used : List String) (v : Int) (k : String),
      _pick_by_id_or_name items id_set name_re used = (some v, some k) → k ∉ used := by
  intro items id_set name_re used v k h
  rw [_pick_by_id_or_name] at h
  split at h
  · rename_i vk hid
    have hvk : vk = (v, k) := by
      have h1 := h
      simp at h1
      exact Prod.ext h1.1 h1.2
    exact pickById_key_fresh (hvk ▸ hid)
  · split at h
    · rename_i vk hnm
      have hvk : vk = (v, k) := by
        have h1 := h
        simp at h1
        exact Prod.ext h1.1 h1.2
      exact pickByName_key_fresh (hvk ▸ hnm)
    · simp at h

/-- Witness for the amended C5: a revenue item matched by id against a
`used` set already holding a different key yields a fresh key. -/
theorem C5_witness :
    _pick_by_id_or_name [⟨some "ifrs-full_Revenue", none, none, some "5"⟩]
        REVENUE_IDS REV_NAME_RE ["id:x"] = (some 5, some "id:ifrs-full_Revenue") ∧
    "id:ifrs-full_Revenue" ∉ ["id:x"] :=
  ⟨by decide,
   C5_used_key_not_reused [⟨some "ifrs-full_Revenue", none, none, some "5"⟩]
     REVENUE_IDS REV_NAME_RE ["id:x"] 5 "id:ifrs-full_Revenue" (by decide)⟩

/-- An item the identifier scan can return for a category: nonempty
identifier in the category's id set, key unused, amount parseable. -/
def idCandidate (id_set used : List String) (it : RawLineItem) : Prop :=
  aidOf it ≠ "" ∧ aidOf it ∈ id_set ∧ ("id:" ++ aidOf it) ∉ used ∧
    _parse_amount it.thstrm_amount ≠ none

/-- An item the display-name scan can return: name matches the
category's pattern, key unused, amount parseable. -/
def nmCandidate (name_re : String → Bool) (used : List String) (it : RawLineItem) : Prop :=
  name_re (nmOf it) = true ∧ ("nm:" ++ nmOf it) ∉ used ∧
    _parse_amount it.thstrm_amount ≠ none

lemma pickById_eq_none_iff {id_set used : List String} :
    ∀ {items : List RawLineItem},
      pickById id_set used items = none ↔ ∀ it ∈ items, ¬ idCandidate id_set used it := by
  intro items
  induction items with
  | nil => simp [pickById]
  | cons it rest ih =>
    rw [pickById]
    split
    · rename_i hg
      split
      · rename_i v hp
        refine iff_of_false (by simp) ?_
        intro hall
        exact hall it (List.mem_cons_self it rest)
          ⟨hg.1, hg.2.1, hg.2.2, fun hn => by simp [hp] at hn⟩
      · rename_i hp
        rw [ih, List.forall_mem_cons]
        have hni : ¬ idCandidate id_set used it := fun hc => hc.2.2.2 hp
        exact (and_iff_right hni).symm
    · rename_i hg
      rw [ih, List.forall_mem_cons]
      have hni : ¬ idCandidate id_set used it := fun hc => hg ⟨hc.1, hc.2.1, hc.2.2.1⟩
      exact (and_iff_right hni).symm

lemma pickByName_eq_none_iff {name_re : String → Bool} {used : List String} :
    ∀ {items : List RawLineItem},
      pickByName name_re used items = none ↔ ∀ it ∈ items, ¬ nmCandidate name_re used it := by
  intro items
  induction items with
  | nil => simp [pickByName]
  | cons it rest ih =>
    rw [pickByName]
    split
    · rename_i hg
      split
      · rename_i v hp
        refine iff_of_false (by simp) ?_
        intro hall
        exact hall it (List.mem_cons_self it rest)
          ⟨hg.1, hg.2, fun hn => by simp [hp] at hn⟩
      · rename_i hp
        rw [ih, List.forall_mem_cons]
        have hni : ¬ nmCandidate name_re used it := fun hc => hc.2.2 hp
        exact (and_iff_right hni).symm
    · rename_i hg
      rw [ih, List.forall_mem_cons]
      have hni : ¬ nmCandidate name_re used it := fun hc => hg ⟨hc.1, hc.2.1⟩
      exact (and_iff_right hni).symm

lemma pickById_shape {id_set used : List String} :
    ∀ {items : List RawLineItem} {vk : Int × String},
      pickById id_set used items = some vk → ∃ a, a ∈ id_set ∧ vk.2 = "id:" ++ a := by
  intro items
  induction items with
  | nil => intro vk h; simp [pickById] at h
  | cons it rest ih =>
    intro vk h
    rw [pickById] at h
    split at h
    · rename_i hg
      split at h
      · rename_i v hp
        refine ⟨aidOf it, hg.2.1, ?_⟩
        have h1 : (v, "id:" ++ aidOf it) = vk := by simpa using h
        rw [← h1]
      · exact ih h
    · exact ih h

lemma pickByName_shape {name_re : String → Bool} {used : List String} :
    ∀ {items : List RawLineItem} {vk : Int × String},
      pickByName name_re used items = some vk → ∃ nm, vk.2 = "nm:" ++ nm := by
  intro items
  induction items with
  | nil => intro vk h; simp [pickByName] at h
  | cons it rest ih =>
    intro vk h
    rw [pickByName] at h
    split at h
    · rename_i hg
      split at h
      · rename_i v hp
        refine ⟨nmOf it, ?_⟩
        have h1 : (v, "nm:" ++ nmOf it) = vk := by simpa using h
        rw [← h1]
      · exact ih h
    · exact ih h

/-- The two items refuting C6: an id-matched assets item whose amount
is the dash placeholder, followed by a name-matched one with amount
300. -/
def unparsedAssetItem : RawLineItem := ⟨some "ifrs-full_Assets", none, none, some "-"⟩

/-- See `unparsedAssetItem`. -/
def namedAssetItem : RawLineItem := ⟨none, none, some "자산총계", some "300"⟩

/-- Counterexample to C6: an unused identifier match exists
(`ifrs-full_Assets`) but its amount fails to parse; instead of yielding
absent for the category, the scan skips it and returns 300 from a
display-name match. -/
theorem C6_counterexample :
    _pick_by_id_or_name [unparsedAssetItem, namedAssetItem] ASSETS_IDS AS_NAME_RE [] =
      (some 300, some "nm:자산총계") ∧
    aidOf unparsedAssetItem ∈ ASSETS_IDS ∧
    ("id:" ++ aidOf unparsedAssetItem) ∉ ([] : List String) ∧
    _parse_amount unparsedAssetItem.thstrm_amount = none := by decide

/-- C6 (amended): the resolver prefers an unused identifier match with
a parseable amount; only when no such item exists does it fall back to
an unused display-name match with a parseable amount; items whose
amount fails to parse are skipped and the scan continues, so the
category is absent exactly when no unused id- or name-matching item
has a parseable amount. -/
theorem C6_pick_order_and_parse_skip :
    ∀ (items : List RawLineItem) (id_set : List String) (name_re : String → Bool)
      (used : List String),
      ((∃ it ∈ items, idCandidate id_set used it) →
        ∃ v a, a ∈ id_set ∧
          _pick_by_id_or_name items id_set name_re used = (some v, some ("id:" ++ a))) ∧
      ((∀ it ∈ items, ¬ idCandidate id_set used it) →
        (∃ it ∈ items, nmCandidate name_re used it) →
        ∃ v nm, _pick_by_id_or_name items id_set name_re used =
          (some v, some ("nm:" ++ nm))) ∧
      ((_pick_by_id_or_name items id_set name_re used).1 = none →
        ∀ it ∈ items, ¬ idCandidate id_set used it ∧ ¬ nmCandidate name_re used it) := by
  intro items id_set name_re used
  refine ⟨?_, ?_, ?_⟩
  · intro h
    cases hid : pickById id_set used items with
    | none =>
      obtain ⟨it, hmem, hc⟩ := h
      exact absurd hc (pickById_eq_none_iff.mp hid it hmem)
    | some vk =>
      obtain ⟨a, ha, hk⟩ := pickById_shape hid
      refine ⟨vk.1, a, ha, ?_⟩
      rw [_pick_by_id_or_name, hid, ← hk]
  · intro hall h
    have hid : pickById id_set used items = none := pickById_eq_none_iff.mpr hall
    cases hnm : pickByName name_re used items with
    | none =>
      obtain ⟨it, hmem, hc⟩ := h
      exact absurd hc (pickByName_eq_none_iff.mp hnm it hmem)
    | some vk =>
      obtain ⟨nm, hk⟩ := pickByName_shape hnm
      refine ⟨vk.1, nm, ?_⟩
      rw [_pick_by_id_or_name, hid, hnm, ← hk]
  · intro h it hmem
    rw [_pick_by_id_or_name] at h
    cases hid : pickById id_set used items with
    | none =>
      rw [hid] at h
      cases hnm : pickByName name_re used items with
      | none =>
        exact ⟨pickById_eq_none_iff.mp hid it hmem, pickByName_eq_none_iff.mp hnm it hmem⟩
      | some vk => rw [hnm] at h; simp at h
    | some vk => rw [hid] at h; simp at h

/-- Witness for the amended C6: a parseable identifier match is
selected through the identifier route. -/
theorem C6_witness :
    ∃ v a, a ∈ ASSETS_IDS ∧
      _pick_by_id_or_name [⟨some "ifrs-full_Assets", none, none, some "300"⟩]
        ASSETS_IDS AS_NAME_RE [] = (some v, some ("id:" ++ a)) :=
  (C6_pick_order_and_parse_skip [⟨some "ifrs-full_Assets", none, none, some "300"⟩]
      ASSETS_IDS AS_NAME_RE []).1
    ⟨⟨some "ifrs-full_Assets", none, none, some "300"⟩, by decide,
     ⟨by decide, by decide, by decide, by decide⟩⟩

lemma fetch_financials_calls (treat oc : Bool) (tick : Option String) (net : StatementFetch) :
    1 ≤ (fetch_financials treat oc tick net).2 ∧ (fetch_financials treat oc tick net).2 ≤ 2 := by
  rw [fetch_financials]
  split <;> simp

lemma worker_skip_cases (done : List String) (existing : List (String × String × String))
    (sk tr oc : Bool) (task : FetchTask) (net : StatementFetch) (st : SchedState)
    (h : taskKey task ∈ done ∨ (sk = true ∧ existKey task ∈ existing)) :
    worker done existing sk tr oc task net st = (WorkerResult.skipped, st, 0) := by
  rcases h with h | h
  · simp [worker, h]
  · by_cases h1 : taskKey task ∈ done
    · simp [worker, h1]
    · simp [worker, h1, h.1, h.2]

lemma worker_limit_refusal (done : List String) (existing : List (String × String × String))
    (sk tr oc : Bool) (task : FetchTask) (net : StatementFetch) (st : SchedState)
    (h1 : taskKey task ∉ done) (h2 : ¬(sk = true ∧ existKey task ∈ existing))
    (h3 : st.api_calls_left < 2) :
    worker done existing sk tr oc task net st = (WorkerResult.limit, st, 0) := by
  simp [worker, h1, h2, take_calls, h3]

lemma worker_dispatch (done : List String) (existing : List (String × String × String))
    (sk tr oc : Bool) (task : FetchTask) (net : StatementFetch) (st : SchedState)
    (h1 : taskKey task ∉ done) (h2 : ¬(sk = true ∧ existKey task ∈ existing))
    (h3 : 2 ≤ st.api_calls_left) :
    worker done existing sk tr oc task net st =
      (WorkerResult.row task.ticker task.corp_code task.year task.q_name
        (fetch_financials tr oc (some task.ticker) net).1,
       ⟨st.api_calls_left - ((fetch_financials tr oc (some task.ticker) net).2 : Int),
        st.done_today ++ [taskKey task]⟩,
       (fetch_financials tr oc (some task.ticker) net).2) := by
  have hb := fetch_financials_calls tr oc (some task.ticker) net
  have hno : ¬ st.api_calls_left < 2 := not_lt.mpr h3
  by_cases hu : (0 : Int) < 2 - ((fetch_financials tr oc (some task.ticker) net).2 : Int)
  · simp [worker, h1, h2, take_calls, hno, hu]
  · simp [worker, h1, h2, take_calls, hno, hu]
    omega

lemma mainPass_cons (done : List String) (existing : List (String × String × String))
    (sk tr oc : Bool) (t : FetchTask) (net : StatementFetch)
    (rest : List (FetchTask × StatementFetch)) (st : SchedState) :
    mainPass done existing sk tr oc ((t, net) :: rest) st =
      ((mainPass done existing sk tr oc rest
          (worker done existing sk tr oc t net st).2.1).1,
       (t, (worker done existing sk tr oc t net st).1) ::
         (mainPass done existing sk tr oc rest
           (worker done existing sk tr oc t net st).2.1).2) := rfl

lemma mainPass_append (done : List String) (existing : List (String × String × String))
    (sk tr oc : Bool) :
    ∀ (ts1 ts2 : List (FetchTask × StatementFetch)) (st : SchedState),
      (mainPass done existing sk tr oc (ts1 ++ ts2) st).1 =
        (mainPass done existing sk tr oc ts2
          (mainPass done existing sk tr oc ts1 st).1).1 := by
  intro ts1
  induction ts1 with
  | nil => intro ts2 st; rfl
  | cons tn rest ih =>
    intro ts2 st
    obtain ⟨t, net⟩ := tn
    simp only [List.cons_append, mainPass_cons]
    exact ih ts2 _

lemma worker_budget_nonneg (done : List String) (existing : List (String × String × String))
    (sk tr oc : Bool) (task : FetchTask) (net : StatementFetch) (st : SchedState)
    (h : 0 ≤ st.api_calls_left) :
    0 ≤ (worker done existing sk tr oc task net st).2.1.api_calls_left := by
  by_cases h1 : taskKey task ∈ done
  · rw [worker_skip_cases done existing sk tr oc task net st (Or.inl h1)]; exact h
  · by_cases h2 : sk = true ∧ existKey task ∈ existing
    · rw [worker_skip_cases done existing sk tr oc task net st (Or.inr h2)]; exact h
    · by_cases h3 : st.api_calls_left < 2
      · rw [worker_limit_refusal done existing sk tr oc task net st h1 h2 h3]; exact h
      · rw [worker_dispatch done existing sk tr oc task net st h1 h2 (not_lt.mp h3)]
        have hb := fetch_financials_calls tr oc (some task.ticker) net
        simp only []
        omega

lemma mainPass_budget_nonneg (done : List String) (existing : List (String × String × String))
    (sk tr oc : Bool) :
    ∀ (ts : List (FetchTask × StatementFetch)) (st : SchedState),
      0 ≤ st.api_calls_left →
      0 ≤ (mainPass done existing sk tr oc ts st).1.api_calls_left := by
  intro ts
  induction ts with
  | nil => intro st h; exact h
  | cons tn rest ih =>
    intro st h
    obtain ⟨t, net⟩ := tn
    rw [mainPass_cons]
    exact ih _ (worker_budget_nonneg done existing sk tr oc t net st h)

lemma dispatchedKeys_cons_skip (t : FetchTask) (rs : List (FetchTask × WorkerResult)) :
    dispatchedKeys ((t, WorkerResult.skipped) :: rs) = dispatchedKeys rs := rfl

lemma dispatchedKeys_cons_limit (t : FetchTask) (rs : List (FetchTask × WorkerResult)) :
    dispatchedKeys ((t, WorkerResult.limit) :: rs) = dispatchedKeys rs := rfl

lemma dispatchedKeys_cons_row (t : FetchTask) (a b c d : String) (fin : CanonicalMetrics)
    (rs : List (FetchTask × WorkerResult)) :
    dispatchedKeys ((t, WorkerResult.row a b c d fin) :: rs) =
      taskKey t :: dispatchedKeys rs := rfl

lemma mainPass_done_today (done : List String) (existing : List (String × String × String))
    (sk tr oc : Bool) :
    ∀ (ts : List (FetchTask × StatementFetch)) (st : SchedState),
      (mainPass done existing sk tr oc ts st).1.done_today =
        st.done_today ++ dispatchedKeys (mainPass done existing sk tr oc ts st).2 := by
  intro ts
  induction ts with
  | nil => intro st; simp [mainPass, dispatchedKeys]
  | cons tn rest ih =>
    intro st
    obtain ⟨t, net⟩ := tn
    by_cases h1 : taskKey t ∈ done
    · simp only [mainPass_cons, worker_skip_cases done existing sk tr oc t net st (Or.inl h1),
        dispatchedKeys_cons_skip]
      exact ih st
    · by_cases h2 : sk = true ∧ existKey t ∈ existing
      · simp only [mainPass_cons, worker_skip_cases done existing sk tr oc t net st (Or.inr h2),
          dispatchedKeys_cons_skip]
        exact ih st
      · by_cases h3 : st.api_calls_left < 2
        · simp only [mainPass_cons,
            worker_limit_refusal done existing sk tr oc t net st h1 h2 h3,
            dispatchedKeys_cons_limit]
          exact ih st
        · simp only [mainPass_cons,
            worker_dispatch done existing sk tr oc t net st h1 h2 (not_lt.mp h3),
            dispatchedKeys_cons_row]
          rw [ih]
          simp [List.append_assoc]

/-- End-to-end scenario D: ten tasks with distinct tickers, each of
whose fetch would make the full two calls (both divisions fail and the
OFS fallback is allowed). -/
def tasksD : List (FetchTask × StatementFetch) :=
  [(⟨"A", "c", "2024", "11013", "Q1"⟩, ⟨none, none⟩),
   (⟨"B", "c", "2024", "11013", "Q1"⟩, ⟨none, none⟩),
   (⟨"C", "c", "2024", "11013", "Q1"⟩, ⟨none, none⟩),
   (⟨"D", "c", "2024", "11013", "Q1"⟩, ⟨none, none⟩),
   (⟨"E", "c", "2024", "11013", "Q1"⟩, ⟨none, none⟩),
   (⟨"F", "c", "2024", "11013", "Q1"⟩, ⟨none, none⟩),
   (⟨"G", "c", "2024", "11013", "Q1"⟩, ⟨none, none⟩),
   (⟨"H", "c", "2024", "11013", "Q1"⟩, ⟨none, none⟩),
   (⟨"I", "c", "2024", "11013", "Q1"⟩, ⟨none, none⟩),
   (⟨"J", "c", "2024", "11013", "Q1"⟩, ⟨none, none⟩)]

/-- C9: each main-pass task reserves two calls and is refused with a
limit report when fewer than two remain, the unused part of the
reservation is credited back (net consumption is the calls actually
made, between one and two), the budget counter stays nonnegative
through every prefix of the run, and the completion set persisted into
the checkpoint is exactly the keys of the dispatched tasks; scenario D
(budget 5, ten tasks of two calls each) dispatches exactly two tasks
and checkpoints exactly their keys. -/
theorem C9_call_budget_protocol :
    (∀ (treat oc : Bool) (tick : Option String) (net : StatementFetch),
      1 ≤ (fetch_financials treat oc tick net).2 ∧
        (fetch_financials treat oc tick net).2 ≤ 2) ∧
    (∀ (done : List String) (existing : List (String × String × String)) (sk tr oc : Bool),
      (∀ (ts1 ts2 : List (FetchTask × StatementFetch)) (st : SchedState),
        (mainPass done existing sk tr oc (ts1 ++ ts2) st).1 =
          (mainPass done existing sk tr oc ts2
            (mainPass done existing sk tr oc ts1 st).1).1) ∧
      (∀ (ts : List (FetchTask × StatementFetch)) (st : SchedState),
        0 ≤ st.api_calls_left →
        0 ≤ (mainPass done existing sk tr oc ts st).1.api_calls_left) ∧
      (∀ (task : FetchTask) (net : StatementFetch) (st : SchedState),
        taskKey task ∉ done → ¬(sk = true ∧ existKey task ∈ existing) →
        st.api_calls_left < 2 →
        worker done existing sk tr oc task net st = (WorkerResult.limit, st, 0)) ∧
      (∀ (task : FetchTask) (net : StatementFetch) (st : SchedState),
        taskKey task ∉ done → ¬(sk = true ∧ existKey task ∈ existing) →
        2 ≤ st.api_calls_left →
        worker done existing sk tr oc task net st =
          (WorkerResult.row task.ticker task.corp_code task.year task.q_name
            (fetch_financials tr oc (some task.ticker) net).1,
           ⟨st.api_calls_left - ((fetch_financials tr oc (some task.ticker) net).2 : Int),
            st.done_today ++ [taskKey task]⟩,
           (fetch_financials tr oc (some task.ticker) net).2)) ∧
      (∀ (ts : List (FetchTask × StatementFetch)) (st : SchedState),
        (mainPass done existing sk tr oc ts st).1.done_today =
          st.done_today ++ dispatchedKeys (mainPass done existing sk tr oc ts st).2)) ∧
    ((mainPass [] [] true true false tasksD ⟨5, []⟩).1 = ⟨1, ["A-2024-Q1", "B-2024-Q1"]⟩ ∧
      dispatchedKeys (mainPass [] [] true true false tasksD ⟨5, []⟩).2 =
        ["A-2024-Q1", "B-2024-Q1"] ∧
      savedCheckpoint [] (mainPass [] [] true true false tasksD ⟨5, []⟩).1 =
        ["A-2024-Q1", "B-2024-Q1"]) := by
  refine ⟨fetch_financials_calls, ?_, by decide⟩
  intro done existing sk tr oc
  exact ⟨mainPass_append done existing sk tr oc,
         mainPass_budget_nonneg done existing sk tr oc,
         worker_limit_refusal done existing sk tr oc,
         worker_dispatch done existing sk tr oc,
         mainPass_done_today done existing sk tr oc⟩

/-- Witness for C9: with one call left, a fresh task is refused as a
limit hit without touching the budget. -/
theorem C9_witness :
    worker [] [] true true false ⟨"A", "c", "2024", "11013", "Q1"⟩ ⟨none, none⟩ ⟨1, []⟩ =
      (WorkerResult.limit, ⟨1, []⟩, 0) :=
  (C9_call_budget_protocol.2.1 [] [] true true false).2.2.1
    ⟨"A", "c", "2024", "11013", "Q1"⟩ ⟨none, none⟩ ⟨1, []⟩
    (by decide) (by decide) (by decide)
